import Mathlib

/-!
Shallow embedding of `src/main.py` (synthetic office-document generator) and
proofs about the claims of its specification.

Randomness in the source (`random.randint`, `random.uniform`, `random.choices`,
`random.sample`) is modelled by passing the drawn values in as parameters, so
every definition is a pure function of the draws it consumes.  Monetary values
and elapsed times are modelled by rational numbers (exact arithmetic); Python's
`round(x, 2)` is modelled by `round2` below; Python's raising `/` is modelled
by an `Except` value that carries a `ZeroDivisionError`.
-/

namespace SynthDocs

/-- The four document types of `DOCUMENT_TYPES` (src/main.py:26). -/
inductive DocType
  | docx | pdf | xlsx | txt
deriving DecidableEq, Repr, Fintype

/-- The five content templates of `DOCUMENT_TEMPLATES` (src/main.py:34). -/
inductive Template
  | report | letter | memo | invoice | data_analysis
deriving DecidableEq, Repr, Fintype

/-- Result status of a generation unit (`"success"` / `"failed"` strings in the
dicts returned by `generate_document`, src/main.py:348-350). -/
inductive Status
  | success | failed
deriving DecidableEq, Repr

/-! ## Invoice arithmetic (`create_excel_document`, src/main.py:192-236) -/

/-- Python's `round(x, 2)`: round to two decimal places.  (Python uses
round-half-to-even on floats; every use in this file applies it either to an
arbitrary draw, where the tie rule is irrelevant to the claims, or to an exact
multiple of 1/100, where every rounding function is the identity.) -/
def round2 (x : ℚ) : ℚ := (round (x * 100) : ℤ) / 100

/-- One line item of the invoice items table (src/main.py:218-230): a quantity
`qty = random.randint(1, 10)`, a unit price `price = round(random.uniform(10,
500), 2)` and the computed `amount = qty * price`. -/
structure InvoiceItem where
  qty : ℕ
  price : ℚ
  amount : ℚ
deriving DecidableEq, Repr

/-- The items table built by the `"invoice"` branch of `create_excel_document`
(src/main.py:218-230), parameterised by the list of random draws: for each item
the drawn quantity and the raw `random.uniform(10, 500)` value whose 2-decimal
rounding becomes the unit price.  `amount = qty * price` exactly as in the
source (the source does not round the product). -/
def mkInvoiceItems (draws : List (ℕ × ℚ)) : List InvoiceItem :=
  draws.map fun d =>
    let price := round2 d.2
    { qty := d.1, price := price, amount := (d.1 : ℚ) * price }

/-- The running `total` accumulated at src/main.py:224 (`total += amount`) and
written to the total row at src/main.py:236: the exact sum of the item
amounts, with no further rounding. -/
def invoiceTotal (items : List InvoiceItem) : ℚ :=
  (items.map InvoiceItem.amount).sum

/-! ## Text source fallback (`generate_paragraphs`, src/main.py:47-108) -/

/-- The built-in fallback sentence list of `generate_paragraphs`
(src/main.py:91-107), verbatim. -/
def fallback_text : List String := [
  "This is a sample paragraph for testing purposes. It contains multiple sentences that form a coherent text block.",
  "The quick brown fox jumps over the lazy dog. This is a common pangram used for testing text rendering.",
  "Lorem ipsum dolor sit amet, consectetur adipiscing elit. Sed do eiusmod tempor incididunt ut labore et dolore magna aliqua.",
  "In a world of digital transformation, data analysis plays a crucial role in decision-making processes.",
  "The importance of clear communication cannot be overstated in professional settings.",
  "Data-driven insights have become essential for modern business operations and strategic planning.",
  "Effective communication is the cornerstone of successful project management and team collaboration.",
  "Innovation and adaptability are key factors in maintaining competitive advantage in today's market.",
  "Quality assurance processes ensure consistent delivery of products and services to customers.",
  "Strategic planning and execution are vital for achieving long-term organizational goals.",
  "The integration of artificial intelligence and machine learning is revolutionizing business processes.",
  "Sustainable practices and environmental responsibility are increasingly important in corporate strategy.",
  "Customer experience and satisfaction remain top priorities in service-oriented industries.",
  "Digital transformation initiatives require careful planning and stakeholder engagement.",
  "Risk management and compliance frameworks are essential for organizational resilience."]

/-- Python's `random.sample(population, n)`: `n` distinct elements of the
population, in random order.  Modelled as the first `n` elements of a random
permutation of the population; the caller supplies the permutation. -/
def randomSample (perm : List String) (n : ℕ) : List String :=
  perm.take n

/-- The fallback branch of `generate_paragraphs` (src/main.py:88-108): when the
primary corpus path raises, the function returns
`random.sample(fallback_text, min(num_paragraphs, len(fallback_text)))`.
`perm` is the random permutation of `fallback_text` underlying the sample. -/
def generate_paragraphs_fallback (num_paragraphs : ℕ) (perm : List String) :
    List String :=
  randomSample perm (min num_paragraphs fallback_text.length)

/-! ## Unit generator (`generate_document`, src/main.py:317-350) -/

/-- The dict returned by `generate_document` (src/main.py:348-350).  Python
returns one of two dict shapes; fields absent from a shape are `none` here
(downstream code reads them with `r.get(...)`, which yields `None` for an
absent key). -/
structure GenerationResult where
  index : ℕ
  status : Status
  docType : Option DocType
  template : Option Template
  filename : Option String
  errorMsg : Option String
deriving DecidableEq, Repr

/-- File extension string for a document type (the keys of `DOCUMENT_TYPES`,
src/main.py:26-31, used as the filename extension at src/main.py:335). -/
def DocType.ext : DocType → String
  | .docx => "docx" | .pdf => "pdf" | .xlsx => "xlsx" | .txt => "txt"

/-- Template name string (the keys of `DOCUMENT_TEMPLATES`, src/main.py:34-40,
interpolated into the filename at src/main.py:335). -/
def Template.name : Template → String
  | .report => "report" | .letter => "letter" | .memo => "memo"
  | .invoice => "invoice" | .data_analysis => "data_analysis"

/-- Decimal digit characters of a positive natural number, most significant
first; `fuel` bounds the recursion depth (`fuel ≥ n` is always enough). -/
def natDigitsAux : ℕ → ℕ → List Char
  | 0, _ => []
  | fuel + 1, n =>
      if n = 0 then []
      else natDigitsAux fuel (n / 10) ++ [Nat.digitChar (n % 10)]

/-- Decimal digit characters of a natural number, most significant first
(model of Python's decimal formatting of a non-negative integer). -/
def natDigits (n : ℕ) : List Char :=
  if n = 0 then ['0'] else natDigitsAux n n

/-- Zero-padded 7-digit decimal rendering of the index, the model of Python's
`f"{doc_index:07d}"` (src/main.py:335). -/
def pad7 (n : ℕ) : String :=
  let ds := natDigits n
  ⟨List.replicate (7 - ds.length) '0' ++ ds⟩

/-- The output path built at src/main.py:334-335:
`os.path.join(OUTPUT_DIR, f"doc_{doc_index:07d}_{template_type}_{rand_id}.{doc_type}")`
with `OUTPUT_DIR = "synthetic_docs"`. -/
def mkFilename (docIndex : ℕ) (template : Template) (randId : String)
    (docType : DocType) : String :=
  "synthetic_docs/doc_" ++ pad7 docIndex ++ "_" ++ template.name ++ "_"
    ++ randId ++ "." ++ docType.ext

/-- `generate_document` (src/main.py:317-350), parameterised by the random
draws it makes (the chosen type, template and 8-character random id) and by the
behaviour of the dispatched synthesizer: `synth path template` is `.ok ()` when
the matching `create_*` call returns and `.error e` when it raises an exception
whose description (`str(e)`) is `e`.  The `try`/`except` of src/main.py:338-350
becomes the `match`: a raising synthesizer yields the failed dict of
src/main.py:350, a returning one the success dict of src/main.py:348. -/
def generate_document (docIndex : ℕ) (docType : DocType) (template : Template)
    (randId : String) (synth : String → Template → Except String Unit) :
    GenerationResult :=
  let filename := mkFilename docIndex template randId docType
  match synth filename template with
  | .ok _ =>
      { index := docIndex, status := .success, docType := some docType,
        template := some template, filename := some filename, errorMsg := none }
  | .error e =>
      { index := docIndex, status := .failed, docType := none,
        template := none, filename := none, errorMsg := some e }

/-! ## Report aggregation (`main`, src/main.py:392-413) -/

/-- `sum(1 for r in results if r["status"] == "success")` (src/main.py:395,
also 388). -/
def success_count (results : List GenerationResult) : ℕ :=
  results.countP fun r => r.status = .success

/-- The count inside the type-distribution comprehension (src/main.py:406):
`sum(1 for r in results if r.get("status") == "success" and r.get("type") == doc_type)`. -/
def type_count (results : List GenerationResult) (t : DocType) : ℕ :=
  results.countP fun r => r.status = .success ∧ r.docType = some t

/-- The count inside the template-distribution comprehension (src/main.py:410). -/
def template_count (results : List GenerationResult) (tp : Template) : ℕ :=
  results.countP fun r => r.status = .success ∧ r.template = some tp

/-- The final report dict written at src/main.py:398-413.  Distributions are
kept as mappings from category to fraction, as in the JSON output. -/
structure FinalReport where
  total_documents : ℕ
  successCount : ℕ
  failedCount : ℤ
  documents_per_second : ℚ
  document_type_distribution : DocType → ℚ
  template_type_distribution : Template → ℚ

/-- The computation of the final report (src/main.py:398-413), over exact
rationals.  Python's `/` raises `ZeroDivisionError` when the denominator is
zero; the two guards reproduce exactly the divisions the source performs:
`NUM_DOCUMENTS / total_time` (src/main.py:404) and the `... / success_count`
divisions of both distribution comprehensions (src/main.py:406, 410).  No
branch of the source checks the denominators. -/
def make_final_report (numDocuments : ℕ) (results : List GenerationResult)
    (totalTime : ℚ) : Except String FinalReport :=
  let sc := success_count results
  if totalTime = 0 then .error "ZeroDivisionError"
  else if sc = 0 then .error "ZeroDivisionError"
  else .ok
    { total_documents := numDocuments
      successCount := sc
      failedCount := (numDocuments : ℤ) - sc
      documents_per_second := (numDocuments : ℚ) / totalTime
      document_type_distribution := fun t => (type_count results t : ℚ) / sc
      template_type_distribution := fun tp => (template_count results tp : ℚ) / sc }

/-! ## Batch checkpointing (`main`, src/main.py:360-390) -/

/-- `total_batches` (src/main.py:362): `(NUM_DOCUMENTS + batch_size - 1) //
batch_size` with `batch_size = 10000`. -/
def total_batches (numDocuments : ℕ) : ℕ := (numDocuments + 10000 - 1) / 10000

/-- The checkpoint condition at src/main.py:382: inside `for batch in
range(total_batches)`, a checkpoint is written iff
`(batch + 1) % 10 == 0 or batch == total_batches - 1`. -/
def shouldCheckpoint (batch totalBatches : ℕ) : Bool :=
  (batch + 1) % 10 == 0 || batch == totalBatches - 1

/-- The checkpoint filename chosen at src/main.py:383:
`f"generation_report_{batch+1}.json"` (inside `OUTPUT_DIR`). -/
def checkpointFilename (batch : ℕ) : String :=
  "synthetic_docs/generation_report_" ++ (⟨natDigits (batch + 1)⟩ : String)
    ++ ".json"

/-- Number of checkpoint events over a whole run of `totalBatches` batches:
how many loop iterations `batch ∈ range(total_batches)` satisfy the condition
of src/main.py:382. -/
def checkpointCount (totalBatches : ℕ) : ℕ :=
  (List.range totalBatches).countP fun batch => shouldCheckpoint batch totalBatches

/-! ## PDF synthesizer (`create_pdf_document`, src/main.py:240-297) -/

/-- One content element placed on the PDF page: a one-line cell
(`pdf.cell(...)` with a text payload), a wrapped paragraph block
(`pdf.multi_cell(...)`), or a vertical gap (`pdf.ln(...)`). -/
inductive PdfElem
  | cell (text : String)
  | multiCell (text : String)
  | lineBreak
deriving DecidableEq, Repr

/-- The sequence of content elements `create_pdf_document`
(src/main.py:240-297) places on the page, parameterised by the random draws:
`gen n` models `generate_paragraphs(n)` (the `n` paragraphs obtained from the
text source), the remaining arguments are the `random.choice` /
`random.randint` / `random.sample` values interpolated into the memo header or
the report title, and `sectionParas` the per-section `random.randint(1, 3)`
draws of the report branch.  The source has branches only for `"memo"` and
`"report"`; any other template falls through both `if`s and the page receives
no content element before `pdf.output(filename)` (src/main.py:297). -/
def create_pdf_document (template : Template) (gen : ℕ → List String)
    (memoTo memoFrom memoDate memoSubject reportTitle : String)
    (sectionParas : List ℕ) : List PdfElem :=
  match template with
  | .memo =>
      [.cell "MEMORANDUM", .lineBreak,
       .cell "TO:", .cell memoTo,
       .cell "FROM:", .cell memoFrom,
       .cell "DATE:", .cell memoDate,
       .cell "SUBJECT:", .cell memoSubject,
       .lineBreak]
      ++ (gen 4).flatMap fun p => [.multiCell p, .lineBreak]
  | .report =>
      [.cell ("REPORT: " ++ reportTitle), .lineBreak]
      ++ ((["Executive Summary", "Introduction", "Methodology", "Findings",
            "Conclusion"].zip sectionParas).flatMap fun s =>
          .cell s.1 :: (gen s.2).flatMap fun p => [.multiCell p, .lineBreak])
  | _ => []

/-! ## Theorems -/

/-- A rational whose hundredfold is an integer is fixed by 2-decimal
rounding. -/
lemma round2_eq_self_of_int (x : ℚ) (m : ℤ) (hm : x * 100 = (m : ℚ)) :
    round2 x = x := by
  unfold round2
  rw [hm, round_intCast]
  rw [eq_comm, eq_div_iff (by norm_num : (100 : ℚ) ≠ 0)]
  exact hm

/-- An integer multiple of a 2-decimal-rounded value is itself fixed by
2-decimal rounding. -/
lemma round2_natCast_mul_round2 (q : ℕ) (raw : ℚ) :
    round2 ((q : ℚ) * round2 raw) = (q : ℚ) * round2 raw := by
  apply round2_eq_self_of_int _ ((q : ℤ) * round (raw * 100))
  simp only [round2]
  push_cast
  ring

/-- Claim C1: in every generated invoice spreadsheet, each line-item amount
equals `round(quantity × unitPrice, 2)`, and the total row is the exact sum of
the individually rounded line-item amounts (rounded before summing, the total
itself not re-rounded). -/
theorem C1_invoice_rounding (draws : List (ℕ × ℚ)) (item : InvoiceItem)
    (hmem : item ∈ mkInvoiceItems draws) :
    item.amount = round2 ((item.qty : ℚ) * item.price) ∧
    invoiceTotal (mkInvoiceItems draws) =
      ((mkInvoiceItems draws).map fun it =>
        round2 ((it.qty : ℚ) * it.price)).sum := by
  constructor
  · simp only [mkInvoiceItems, List.mem_map] at hmem
    obtain ⟨d, -, rfl⟩ := hmem
    exact (round2_natCast_mul_round2 d.1 d.2).symm
  · unfold invoiceTotal
    congr 1
    refine List.map_congr_left fun it hit => ?_
    simp only [mkInvoiceItems, List.mem_map] at hit
    obtain ⟨d, -, rfl⟩ := hit
    exact (round2_natCast_mul_round2 d.1 d.2).symm

/-- Witness for C1 at the concrete draw list `[(3, 99/4)]` (quantity 3, raw
price 24.75). -/
theorem C1_invoice_rounding_witness :
    (⟨3, 99/4, 297/4⟩ : InvoiceItem) ∈ mkInvoiceItems [(3, 99/4)] ∧
    ((⟨3, 99/4, 297/4⟩ : InvoiceItem).amount
        = round2 (((⟨3, 99/4, 297/4⟩ : InvoiceItem).qty : ℚ)
            * (⟨3, 99/4, 297/4⟩ : InvoiceItem).price) ∧
      invoiceTotal (mkInvoiceItems [(3, 99/4)]) =
        ((mkInvoiceItems [(3, 99/4)]).map fun it =>
          round2 ((it.qty : ℚ) * it.price)).sum) := by
  have h1 : round2 ((99 : ℚ)/4) = 99/4 :=
    round2_eq_self_of_int _ 2475 (by norm_num)
  have hmem : (⟨3, 99/4, 297/4⟩ : InvoiceItem) ∈ mkInvoiceItems [(3, 99/4)] := by
    simp only [mkInvoiceItems, List.map_cons, List.map_nil, h1,
      List.mem_singleton, InvoiceItem.mk.injEq]
    norm_num
  exact ⟨hmem, C1_invoice_rounding [(3, 99/4)] _ hmem⟩

/-- Counterexample to claim C2 as stated: with the primary corpus unavailable
and 16 paragraphs requested, the fallback returns only
`min(16, len(fallback_text)) = 15` strings, not 16. -/
theorem C2_counterexample_length :
    fallback_text.Perm fallback_text ∧
    (generate_paragraphs_fallback 16 fallback_text).length ≠ 16 :=
  ⟨List.Perm.refl _, by decide⟩

/-- Amended claim C2: when the primary text path raises, the call returns
exactly `min k 15` non-empty strings drawn from the built-in 15-sentence
fallback list, without any repetition (never with repetition: for `k > 15` the
result is truncated to 15 rather than padded by repeats), and no error
propagates (the fallback is a total function of the draw). -/
theorem C2_fallback_amended (k : ℕ) (perm : List String)
    (hperm : perm.Perm fallback_text) :
    (generate_paragraphs_fallback k perm).length = min k fallback_text.length ∧
    (∀ s ∈ generate_paragraphs_fallback k perm, s ≠ "" ∧ s ∈ fallback_text) ∧
    (generate_paragraphs_fallback k perm).Nodup := by
  have hlen : perm.length = fallback_text.length := hperm.length_eq
  refine ⟨?_, fun s hs => ?_, ?_⟩
  · simp only [generate_paragraphs_fallback, randomSample, List.length_take,
      hlen]
    rw [min_assoc, min_self]
  · have hsperm : s ∈ perm := List.mem_of_mem_take hs
    have hsfb : s ∈ fallback_text := hperm.mem_iff.mp hsperm
    refine ⟨?_, hsfb⟩
    have hne : ∀ x ∈ fallback_text, x ≠ "" := by decide
    exact hne s hsfb
  · have hnd : fallback_text.Nodup := by decide
    have hpermnd : perm.Nodup := hperm.nodup_iff.mpr hnd
    exact (List.take_sublist _ _).nodup hpermnd

/-- Witness for C2's amended statement at `k = 3` with the identity
permutation of the fallback pool. -/
theorem C2_fallback_amended_witness :
    fallback_text.Perm fallback_text ∧
    (generate_paragraphs_fallback 3 fallback_text).length
      = min 3 fallback_text.length :=
  ⟨List.Perm.refl _,
    (C2_fallback_amended 3 fallback_text (List.Perm.refl _)).1⟩

/-- Claim C3: `generate_document` catches any error raised by the dispatched
synthesizer at the unit boundary and turns it into a `failed` result carrying
the error's description; for every unit the call returns a result whose status
is `success` or `failed`, and a synthesizer exception never propagates (the
function is total on every synthesizer behaviour, modelled by the arbitrary
`anySynth`). -/
theorem C3_failure_isolation (docIndex : ℕ) (docType : DocType)
    (template : Template) (randId : String)
    (failSynth anySynth : String → Template → Except String Unit) (e : String)
    (hfail : failSynth (mkFilename docIndex template randId docType) template
        = .error e) :
    generate_document docIndex docType template randId failSynth =
      { index := docIndex, status := .failed, docType := none,
        template := none, filename := none, errorMsg := some e } ∧
    ((generate_document docIndex docType template randId anySynth).status
        = .success ∨
      (generate_document docIndex docType template randId anySynth).status
        = .failed) := by
  constructor
  · simp only [generate_document]
    rw [hfail]
  · simp only [generate_document]
    cases anySynth (mkFilename docIndex template randId docType) template <;>
      simp

/-- Witness for C3 at concrete inputs, with a synthesizer that always raises
`"disk full"`. -/
theorem C3_failure_isolation_witness :
    (fun (_ : String) (_ : Template) =>
        (.error "disk full" : Except String Unit))
        (mkFilename 1 .report "abcd1234" .docx) .report
      = .error "disk full" ∧
    (generate_document 1 .docx .report "abcd1234"
        (fun _ _ => .error "disk full") =
      { index := 1, status := .failed, docType := none, template := none,
        filename := none, errorMsg := some "disk full" } ∧
      ((generate_document 1 .docx .report "abcd1234"
          (fun _ _ => .ok ())).status = .success ∨
        (generate_document 1 .docx .report "abcd1234"
          (fun _ _ => .ok ())).status = .failed)) :=
  ⟨rfl, C3_failure_isolation 1 .docx .report "abcd1234" _ _ "disk full" rfl⟩

/-- Claim C10 (implicit): a failed result omits the already-drawn type and
template and the already-built filename (they read back as `None`), while a
success result carries index, filename, type, template and status; so
downstream consumers must access type/template/filename optionally. -/
theorem C10_result_field_presence (docIndex : ℕ) (docType : DocType)
    (template : Template) (randId : String)
    (failSynth okSynth : String → Template → Except String Unit) (e : String)
    (hfail : failSynth (mkFilename docIndex template randId docType) template
        = .error e)
    (hok : okSynth (mkFilename docIndex template randId docType) template
        = .ok ()) :
    ((generate_document docIndex docType template randId failSynth).status
        = .failed ∧
      (generate_document docIndex docType template randId failSynth).docType
        = none ∧
      (generate_document docIndex docType template randId failSynth).template
        = none ∧
      (generate_document docIndex docType template randId failSynth).filename
        = none ∧
      (generate_document docIndex docType template randId failSynth).errorMsg
        = some e ∧
      (generate_document docIndex docType template randId failSynth).index
        = docIndex) ∧
    ((generate_document docIndex docType template randId okSynth).status
        = .success ∧
      (generate_document docIndex docType template randId okSynth).docType
        = some docType ∧
      (generate_document docIndex docType template randId okSynth).template
        = some template ∧
      (generate_document docIndex docType template randId okSynth).filename
        = some (mkFilename docIndex template randId docType) ∧
      (generate_document docIndex docType template randId okSynth).errorMsg
        = none ∧
      (generate_document docIndex docType template randId okSynth).index
        = docIndex) := by
  simp only [generate_document]
  rw [hfail, hok]
  exact ⟨⟨rfl, rfl, rfl, rfl, rfl, rfl⟩, ⟨rfl, rfl, rfl, rfl, rfl, rfl⟩⟩

/-- Witness for C10 at concrete inputs: one always-raising and one
always-succeeding synthesizer. -/
theorem C10_result_field_presence_witness :
    (fun (_ : String) (_ : Template) => (.error "oops" : Except String Unit))
        (mkFilename 2 .invoice "zzzz9999" .xlsx) .invoice = .error "oops" ∧
    (fun (_ : String) (_ : Template) => (.ok () : Except String Unit))
        (mkFilename 2 .invoice "zzzz9999" .xlsx) .invoice = .ok () ∧
    (((generate_document 2 .xlsx .invoice "zzzz9999"
          (fun _ _ => .error "oops")).status = .failed ∧
        (generate_document 2 .xlsx .invoice "zzzz9999"
          (fun _ _ => .error "oops")).docType = none ∧
        (generate_document 2 .xlsx .invoice "zzzz9999"
          (fun _ _ => .error "oops")).template = none ∧
        (generate_document 2 .xlsx .invoice "zzzz9999"
          (fun _ _ => .error "oops")).filename = none ∧
        (generate_document 2 .xlsx .invoice "zzzz9999"
          (fun _ _ => .error "oops")).errorMsg = some "oops" ∧
        (generate_document 2 .xlsx .invoice "zzzz9999"
          (fun _ _ => .error "oops")).index = 2) ∧
      ((generate_document 2 .xlsx .invoice "zzzz9999"
          (fun _ _ => .ok ())).status = .success ∧
        (generate_document 2 .xlsx .invoice "zzzz9999"
          (fun _ _ => .ok ())).docType = some .xlsx ∧
        (generate_document 2 .xlsx .invoice "zzzz9999"
          (fun _ _ => .ok ())).template = some .invoice ∧
        (generate_document 2 .xlsx .invoice "zzzz9999"
          (fun _ _ => .ok ())).filename
            = some (mkFilename 2 .invoice "zzzz9999" .xlsx) ∧
        (generate_document 2 .xlsx .invoice "zzzz9999"
          (fun _ _ => .ok ())).errorMsg = none ∧
        (generate_document 2 .xlsx .invoice "zzzz9999"
          (fun _ _ => .ok ())).index = 2)) :=
  ⟨rfl, rfl,
    C10_result_field_presence 2 .xlsx .invoice "zzzz9999" _ _ "oops" rfl rfl⟩

/-- A run outcome in which the single unit failed (reachable: any synthesizer
error yields such a result, see `generate_document`). -/
def allFailedResults : List GenerationResult :=
  [{ index := 1, status := .failed, docType := none, template := none,
     filename := none, errorMsg := some "boom" }]

/-- A run outcome with one success and one failure. -/
def mixedResults : List GenerationResult :=
  [{ index := 1, status := .success, docType := some .docx,
     template := some .report, filename := some "f1", errorMsg := none },
   { index := 2, status := .failed, docType := none, template := none,
     filename := none, errorMsg := some "x" }]

/-- Counterexample to claim C4 as stated: on a (reachable) all-failed result
list, `successCount = 0` and the report computation reaches an unguarded
division by zero (`... / success_count`, src/main.py:406,410) and raises,
instead of producing zero fractions. -/
theorem C4_counterexample_div_by_zero :
    success_count allFailedResults = 0 ∧
    make_final_report 1 allFailedResults 1 = .error "ZeroDivisionError" := by
  constructor
  · rfl
  · rfl

/-- Amended claim C4: the division-by-zero branch is not guarded — whenever
`successCount = 0` (and the elapsed time is nonzero, so that the earlier
throughput division succeeds), the final-report computation divides by zero
and raises `ZeroDivisionError`; the type- and template-distribution fractions
are only ever computed when `successCount > 0`. -/
theorem C4_amended_div_by_zero (numDocs : ℕ)
    (results : List GenerationResult) (t : ℚ) (ht : t ≠ 0)
    (hsc : success_count results = 0) :
    make_final_report numDocs results t = .error "ZeroDivisionError" := by
  simp only [make_final_report]
  rw [if_neg ht, hsc, if_pos rfl]

/-- Witness for C4's amended statement on the concrete all-failed run. -/
theorem C4_amended_witness :
    (1 : ℚ) ≠ 0 ∧ success_count allFailedResults = 0 ∧
    make_final_report 7 allFailedResults 1 = .error "ZeroDivisionError" :=
  ⟨by norm_num, rfl, C4_amended_div_by_zero 7 allFailedResults 1 (by norm_num) rfl⟩

/-- Counterexample to claim C5 as stated: with 2 total documents, 1 success
and 1 second elapsed, the report's `documents_per_second` field is
`NUM_DOCUMENTS / total_time = 2` (src/main.py:404), not
`successCount / elapsedSeconds = 1`. -/
theorem C5_counterexample_throughput :
    success_count mixedResults = 1 ∧
    (make_final_report 2 mixedResults 1).map FinalReport.documents_per_second
      = .ok 2 ∧
    (2 : ℚ) ≠ (success_count mixedResults : ℚ) / 1 := by
  refine ⟨rfl, ?_, ?_⟩
  · simp only [make_final_report]
    rw [if_neg (by norm_num : ¬(1 : ℚ) = 0),
      if_neg (by decide : ¬success_count mixedResults = 0)]
    simp only [Except.map, Except.ok.injEq]
    norm_num
  · have h : success_count mixedResults = 1 := rfl
    rw [h]
    norm_num

/-- Amended claim C5: the `documents_per_second` figure in the final report
equals `totalDocuments / elapsedSeconds` (the success-based rate appears only
in the console print, src/main.py:417, not in the report), and there is no
guard for a zero elapsed time — that case raises `ZeroDivisionError`. -/
theorem C5_amended_throughput (numDocs : ℕ)
    (results : List GenerationResult) (t : ℚ) (ht : t ≠ 0)
    (hsc : success_count results ≠ 0) :
    (make_final_report numDocs results t).map FinalReport.documents_per_second
      = .ok ((numDocs : ℚ) / t) ∧
    make_final_report numDocs results 0 = .error "ZeroDivisionError" := by
  constructor
  · simp only [make_final_report]
    rw [if_neg ht, if_neg hsc]
    simp only [Except.map]
  · simp [make_final_report]

/-- Witness for C5's amended statement on the concrete mixed run. -/
theorem C5_amended_witness :
    (1 : ℚ) ≠ 0 ∧ success_count mixedResults ≠ 0 ∧
    ((make_final_report 2 mixedResults 1).map FinalReport.documents_per_second
        = .ok ((2 : ℕ) / (1 : ℚ)) ∧
      make_final_report 2 mixedResults 0 = .error "ZeroDivisionError") :=
  ⟨by norm_num, by decide,
    C5_amended_throughput 2 mixedResults 1 (by norm_num) (by decide)⟩

/-- Counting the multiples of ten among the 1-based batch numbers `1..B`. -/
lemma countP_range_mod10 (B : ℕ) :
    (List.range B).countP (fun batch => (batch + 1) % 10 == 0) = B / 10 := by
  induction B with
  | zero => rfl
  | succ n ih =>
      rw [List.range_succ, List.countP_append, ih, List.countP_cons,
        List.countP_nil]
      by_cases h : (n + 1) % 10 = 0
      · have hb : ((n + 1) % 10 == 0) = true := by simp [h]
        rw [hb, if_pos rfl]
        omega
      · have hb : ((n + 1) % 10 == 0) = false := by simp [h]
        rw [hb]
        simp only [Bool.false_eq_true, if_false]
        omega

/-- Claim C6: a checkpoint is persisted exactly when the 1-based batch number
is a multiple of the interval (10 in the source) or the batch is the last one,
and over a run of `B ≥ 1` batches the number of checkpoint events is
`B / 10`, plus one if `B` is not itself a multiple of 10. -/
theorem C6_checkpoint_schedule (B : ℕ) (hB : 1 ≤ B) :
    (∀ batch, batch < B →
      (shouldCheckpoint batch B = true ↔
        ((batch + 1) % 10 = 0 ∨ batch + 1 = B))) ∧
    checkpointCount B = B / 10 + (if B % 10 = 0 then 0 else 1) := by
  constructor
  · intro batch hlt
    simp only [shouldCheckpoint, Bool.or_eq_true, beq_iff_eq]
    omega
  · obtain ⟨Bm1, rfl⟩ : ∃ n, B = n + 1 := ⟨B - 1, by omega⟩
    unfold checkpointCount
    rw [List.range_succ, List.countP_append]
    have h1 : (List.range Bm1).countP
          (fun batch => shouldCheckpoint batch (Bm1 + 1))
        = (List.range Bm1).countP (fun batch => (batch + 1) % 10 == 0) := by
      apply List.countP_congr
      intro x hx
      have hxlt : x < Bm1 := List.mem_range.mp hx
      simp only [shouldCheckpoint, Bool.or_eq_true, beq_iff_eq]
      omega
    have h2 : List.countP
        (fun batch => shouldCheckpoint batch (Bm1 + 1)) [Bm1] = 1 := by
      simp [List.countP_cons, shouldCheckpoint]
    rw [h1, countP_range_mod10, h2]
    by_cases h : (Bm1 + 1) % 10 = 0
    · rw [if_pos h]
      omega
    · rw [if_neg h]
      omega

/-- Witness for C6 on a run of 20 batches: two checkpoint events. -/
theorem C6_checkpoint_schedule_witness :
    1 ≤ 20 ∧
    checkpointCount 20 = 20 / 10 + (if 20 % 10 = 0 then 0 else 1) :=
  ⟨by decide, (C6_checkpoint_schedule 20 (by decide)).2⟩

/-- Numeric value of a decimal digit-character list (left inverse of
`natDigits`). -/
def digitsVal (l : List Char) : ℕ :=
  l.foldl (fun acc c => acc * 10 + (c.toNat - 48)) 0

lemma digitsVal_append_singleton (l : List Char) (c : Char) :
    digitsVal (l ++ [c]) = digitsVal l * 10 + (c.toNat - 48) := by
  unfold digitsVal
  rw [List.foldl_append]
  rfl

lemma digitChar_val (d : ℕ) (hd : d < 10) :
    (Nat.digitChar d).toNat - 48 = d := by
  have h : ∀ m < 10, (Nat.digitChar m).toNat - 48 = m := by decide
  exact h d hd

lemma digitsVal_natDigitsAux :
    ∀ fuel n : ℕ, n ≤ fuel → digitsVal (natDigitsAux fuel n) = n := by
  intro fuel
  induction fuel with
  | zero =>
      intro n hn
      have h0 : n = 0 := by omega
      subst h0
      rfl
  | succ f ih =>
      intro n hn
      by_cases h0 : n = 0
      · subst h0
        rfl
      · simp only [natDigitsAux, if_neg h0]
        rw [digitsVal_append_singleton, ih (n / 10) (by omega),
          digitChar_val _ (by omega)]
        omega

lemma digitsVal_natDigits (n : ℕ) : digitsVal (natDigits n) = n := by
  unfold natDigits
  by_cases h : n = 0
  · subst h
    rfl
  · rw [if_neg h]
    exact digitsVal_natDigitsAux n n le_rfl

lemma natDigits_injective : Function.Injective natDigits := by
  intro a b h
  have := congrArg digitsVal h
  rwa [digitsVal_natDigits, digitsVal_natDigits] at this

/-- Counterexample to claim C7 as stated: in a run of 20 batches, batches 10
and 20 (0-based 9 and 19) are both checkpoint events, and they are written to
two different files (`generation_report_10.json` and
`generation_report_20.json`), so the later checkpoint does not supersede the
earlier file. -/
theorem C7_counterexample_two_files :
    shouldCheckpoint 9 20 = true ∧ shouldCheckpoint 19 20 = true ∧
    checkpointFilename 9 ≠ checkpointFilename 19 := by
  refine ⟨rfl, rfl, ?_⟩
  decide

/-- Amended claim C7: each persisted ProgressCheckpoint is written to its own
file, named by the completed-batch count (`generation_report_{batch+1}.json`);
distinct checkpoint events write distinct files, so prior checkpoint files are
never overwritten and the number of checkpoint files grows with the number of
checkpoint events. -/
theorem C7_amended_separate_files (b1 b2 : ℕ) (h : b1 ≠ b2) :
    checkpointFilename b1 ≠ checkpointFilename b2 := by
  intro heq
  apply h
  have hdata := congrArg String.data heq
  simp only [checkpointFilename, String.data_append, List.append_assoc]
    at hdata
  have h1 : natDigits (b1 + 1) ++ (".json" : String).data
      = natDigits (b2 + 1) ++ (".json" : String).data :=
    List.append_cancel_left hdata
  have h2 : natDigits (b1 + 1) = natDigits (b2 + 1) :=
    List.append_cancel_right h1
  have h3 := natDigits_injective h2
  omega

/-- Witness for C7's amended statement at the checkpoint events of batches 5
and 15. -/
theorem C7_amended_witness :
    (4 : ℕ) ≠ 14 ∧ checkpointFilename 4 ≠ checkpointFilename 14 :=
  ⟨by decide, C7_amended_separate_files 4 14 (by decide)⟩

/-- Counterexample to claim C8 as stated: for the `"invoice"` template (which
is neither `"memo"` nor `"report"`) the PDF synthesizer places no content
element at all on the page — there is no title and no generated paragraph,
just the empty page written by `pdf.output` (src/main.py:297). -/
theorem C8_counterexample_empty_page :
    create_pdf_document .invoice (fun n => List.replicate n "paragraph")
      "to" "from" "date" "subject" "title" [1] = [] := rfl

/-- Amended claim C8: for every template other than `"memo"` and `"report"`,
the PDF synthesizer writes a document whose single page carries no content
elements (an empty page); it does not fail, but neither does it emit a title
or a fallback paragraph. -/
theorem C8_amended_empty_page (template : Template) (gen : ℕ → List String)
    (memoTo memoFrom memoDate memoSubject reportTitle : String)
    (sectionParas : List ℕ) (hm : template ≠ .memo) (hr : template ≠ .report) :
    create_pdf_document template gen memoTo memoFrom memoDate memoSubject
      reportTitle sectionParas = [] := by
  cases template
  · exact absurd rfl hr
  · rfl
  · exact absurd rfl hm
  · rfl
  · rfl

/-- Witness for C8's amended statement at the `"invoice"` template. -/
theorem C8_amended_witness :
    Template.invoice ≠ Template.memo ∧ Template.invoice ≠ Template.report ∧
    create_pdf_document .invoice (fun n => List.replicate n "p")
      "to" "from" "date" "subject" "title" [2, 1] = [] :=
  ⟨by decide, by decide,
    C8_amended_empty_page .invoice (fun n => List.replicate n "p")
      "to" "from" "date" "subject" "title" [2, 1] (by decide) (by decide)⟩

/-- Every successful result carries exactly one document type, so the per-type
success counts partition the success count. -/
lemma sum_type_count :
    ∀ results : List GenerationResult,
      (∀ r ∈ results, r.status = .success → r.docType.isSome) →
      ∑ ty : DocType, type_count results ty = success_count results
  | [], _ => by simp [type_count, success_count]
  | r :: l, h => by
      have hl : ∀ x ∈ l, x.status = .success → x.docType.isSome :=
        fun x hx hs => h x (List.mem_cons_of_mem r hx) hs
      have ih := sum_type_count l hl
      have key : ∀ ty : DocType, type_count (r :: l) ty
          = type_count l ty
            + if r.status = .success ∧ r.docType = some ty then 1 else 0 := by
        intro ty
        simp [type_count, List.countP_cons]
      have hsc : success_count (r :: l)
          = success_count l + if r.status = .success then 1 else 0 := by
        simp [success_count, List.countP_cons]
      calc ∑ ty : DocType, type_count (r :: l) ty
          = ∑ ty : DocType, (type_count l ty
              + if r.status = .success ∧ r.docType = some ty then 1 else 0) :=
            Finset.sum_congr rfl fun ty _ => key ty
        _ = (∑ ty : DocType, type_count l ty)
              + ∑ ty : DocType,
                  (if r.status = .success ∧ r.docType = some ty then 1 else 0) :=
            Finset.sum_add_distrib
        _ = success_count l
              + ∑ ty : DocType,
                  (if r.status = .success ∧ r.docType = some ty then 1 else 0) := by
            rw [ih]
        _ = success_count (r :: l) := by
            rw [hsc]
            congr 1
            cases hst : r.status with
            | success =>
                obtain ⟨t0, ht0⟩ := Option.isSome_iff_exists.mp
                  (h r (List.mem_cons_self r l) hst)
                simp [ht0, Finset.sum_ite_eq]
            | failed => simp [hst]

/-- Every successful result carries exactly one template, so the per-template
success counts partition the success count. -/
lemma sum_template_count :
    ∀ results : List GenerationResult,
      (∀ r ∈ results, r.status = .success → r.template.isSome) →
      ∑ tp : Template, template_count results tp = success_count results
  | [], _ => by simp [template_count, success_count]
  | r :: l, h => by
      have hl : ∀ x ∈ l, x.status = .success → x.template.isSome :=
        fun x hx hs => h x (List.mem_cons_of_mem r hx) hs
      have ih := sum_template_count l hl
      have key : ∀ tp : Template, template_count (r :: l) tp
          = template_count l tp
            + if r.status = .success ∧ r.template = some tp then 1 else 0 := by
        intro tp
        simp [template_count, List.countP_cons]
      have hsc : success_count (r :: l)
          = success_count l + if r.status = .success then 1 else 0 := by
        simp [success_count, List.countP_cons]
      calc ∑ tp : Template, template_count (r :: l) tp
          = ∑ tp : Template, (template_count l tp
              + if r.status = .success ∧ r.template = some tp then 1 else 0) :=
            Finset.sum_congr rfl fun tp _ => key tp
        _ = (∑ tp : Template, template_count l tp)
              + ∑ tp : Template,
                  (if r.status = .success ∧ r.template = some tp then 1 else 0) :=
            Finset.sum_add_distrib
        _ = success_count l
              + ∑ tp : Template,
                  (if r.status = .success ∧ r.template = some tp then 1 else 0) := by
            rw [ih]
        _ = success_count (r :: l) := by
            rw [hsc]
            congr 1
            cases hst : r.status with
            | success =>
                obtain ⟨t0, ht0⟩ := Option.isSome_iff_exists.mp
                  (h r (List.mem_cons_self r l) hst)
                simp [ht0, Finset.sum_ite_eq]
            | failed => simp [hst]

/-- Claim C9: whenever `successCount > 0`, the type-distribution fractions of
the final report sum to exactly 1 and the template-distribution fractions sum
to exactly 1, because every successful result carries exactly one type and one
template from the fixed category sets. -/
theorem C9_distribution_sums (numDocs : ℕ) (results : List GenerationResult)
    (t : ℚ) (ht : t ≠ 0) (hsc : success_count results ≠ 0)
    (hty : ∀ r ∈ results, r.status = .success → r.docType.isSome)
    (htp : ∀ r ∈ results, r.status = .success → r.template.isSome) :
    (make_final_report numDocs results t).map
        (fun rep => ∑ ty : DocType, rep.document_type_distribution ty)
      = .ok 1 ∧
    (make_final_report numDocs results t).map
        (fun rep => ∑ tp : Template, rep.template_type_distribution tp)
      = .ok 1 := by
  have hscQ : (success_count results : ℚ) ≠ 0 := Nat.cast_ne_zero.mpr hsc
  constructor
  · simp only [make_final_report]
    rw [if_neg ht, if_neg hsc]
    simp only [Except.map, Except.ok.injEq]
    rw [← Finset.sum_div, ← Nat.cast_sum, sum_type_count results hty,
      div_self hscQ]
  · simp only [make_final_report]
    rw [if_neg ht, if_neg hsc]
    simp only [Except.map, Except.ok.injEq]
    rw [← Finset.sum_div, ← Nat.cast_sum, sum_template_count results htp,
      div_self hscQ]

/-- Witness for C9 on the concrete mixed run (one success, one failure). -/
theorem C9_distribution_sums_witness :
    success_count mixedResults ≠ 0 ∧
    ((make_final_report 2 mixedResults 1).map
        (fun rep => ∑ ty : DocType, rep.document_type_distribution ty)
      = .ok 1 ∧
    (make_final_report 2 mixedResults 1).map
        (fun rep => ∑ tp : Template, rep.template_type_distribution tp)
      = .ok 1) :=
  ⟨by decide,
    C9_distribution_sums 2 mixedResults 1 (by norm_num) (by decide)
      (by decide) (by decide)⟩

end SynthDocs
